import Mathlib

/-!
Verification of the workload / JTM-allocation core of the school planning
backend (handlers `teacher_workload.ts` and the JTM-assignment handler).

The relational store is embedded as lists of records; `db.select(...).where(eq ...)`
becomes a `List.filter` on the corresponding list, `innerJoin` becomes a
`filterMap` through a point lookup, and handlers that `throw` become
`Except String` values.  Numeric columns: `integer` columns are `Int`,
`numeric(4,2)` (`jp_equivalent`) is `Rat` (the handler reads it through
`parseFloat`), and workload totals are `Rat`.
-/

/-- Row of `teachersTable` (fields the handlers use). -/
structure Teacher where
  id : Nat
  name : String
  nip_nuptk : String
  deriving Repr, DecidableEq

/-- Row of `academicYearsTable` (fields the handlers use). -/
structure AcademicYear where
  id : Nat
  year : String
  semester : Int
  curriculum : String
  total_time_allocation : Int
  is_active : Bool
  deriving Repr, DecidableEq

/-- Row of `subjectsTable`. -/
structure Subject where
  id : Nat
  code : String
  name : String
  time_allocation : Int
  deriving Repr, DecidableEq

/-- Row of `classesTable`. -/
structure SchoolClass where
  id : Nat
  grade_level : Int
  rombel : String
  class_name : String
  academic_year_id : Nat
  deriving Repr, DecidableEq

/-- Row of `additionalTasksTable`; `jp_equivalent` is the decimal column. -/
structure AdditionalTask where
  id : Nat
  name : String
  description : String
  jp_equivalent : Rat
  deriving Repr, DecidableEq

/-- Row of `jtmAssignmentsTable`. -/
structure JtmAssignment where
  id : Nat
  academic_year_id : Nat
  teacher_id : Nat
  subject_id : Nat
  class_id : Nat
  allocated_hours : Int
  deriving Repr, DecidableEq

/-- Row of `taskAssignmentsTable`. -/
structure TaskAssignment where
  id : Nat
  academic_year_id : Nat
  teacher_id : Nat
  task_id : Nat
  description : Option String
  deriving Repr, DecidableEq

/-- The relational store: one list per table used by the workload core. -/
structure DB where
  teachers : List Teacher
  academicYears : List AcademicYear
  subjects : List Subject
  classes : List SchoolClass
  additionalTasks : List AdditionalTask
  jtmAssignments : List JtmAssignment
  taskAssignments : List TaskAssignment
  deriving Repr

/-- `db.select().from(teachersTable).where(eq(teachersTable.id, id))`, first row. -/
def findTeacher (db : DB) (id : Nat) : Option Teacher :=
  (db.teachers.filter (fun t => t.id == id)).head?

/-- `db.select().from(academicYearsTable).where(eq(academicYearsTable.id, id))`, first row. -/
def findAcademicYear (db : DB) (id : Nat) : Option AcademicYear :=
  (db.academicYears.filter (fun y => y.id == id)).head?

/-- `db.select().from(subjectsTable).where(eq(subjectsTable.id, id))`, first row. -/
def findSubject (db : DB) (id : Nat) : Option Subject :=
  (db.subjects.filter (fun s => s.id == id)).head?

/-- `db.select().from(classesTable).where(eq(classesTable.id, id))`, first row. -/
def findClass (db : DB) (id : Nat) : Option SchoolClass :=
  (db.classes.filter (fun c => c.id == id)).head?

/-- `db.select().from(additionalTasksTable).where(eq(additionalTasksTable.id, id))`, first row. -/
def findTask (db : DB) (id : Nat) : Option AdditionalTask :=
  (db.additionalTasks.filter (fun t => t.id == id)).head?

/-- `workloadStatusEnum`: `layak` / `lebih` / `kurang`. -/
inductive WorkloadStatus where
  | layak
  | lebih
  | kurang
  deriving Repr, DecidableEq

/-- `const MIN_WORKLOAD_HOURS = 24`. -/
def MIN_WORKLOAD_HOURS : Rat := 24

/-- `const MAX_WORKLOAD_HOURS = 40`. -/
def MAX_WORKLOAD_HOURS : Rat := 40

/-- `getWorkloadStatus` from `teacher_workload.ts`:
`totalHours < 24 → kurang`, `totalHours > 40 → lebih`, otherwise `layak`. -/
def getWorkloadStatus (totalHours : Rat) : WorkloadStatus :=
  if totalHours < MIN_WORKLOAD_HOURS then .kurang
  else if totalHours > MAX_WORKLOAD_HOURS then .lebih
  else .layak

set_option linter.unnecessarySeqFocus false in
/-- **C1.** The workload status classification is a pure function of the total
workload with fixed thresholds MIN = 24 and MAX = 40: strictly below 24 is
`kurang`, strictly above 40 is `lebih`, and everything in the closed interval
[24, 40] (both endpoints included) is `layak`. -/
theorem getWorkloadStatus_thresholds (w : Rat) :
    (getWorkloadStatus w = .kurang ↔ w < 24) ∧
    (getWorkloadStatus w = .lebih ↔ w > 40) ∧
    (getWorkloadStatus w = .layak ↔ (24 ≤ w ∧ w ≤ 40)) := by
  unfold getWorkloadStatus MIN_WORKLOAD_HOURS MAX_WORKLOAD_HOURS
  split_ifs with h1 h2 <;> refine ⟨?_, ?_, ?_⟩ <;> simp_all <;> try linarith

/-- Entry of a `TeacherWorkload.details` array: tagged `'jtm'` or `'task'`. -/
inductive WorkloadDetail where
  | jtm (subject_name : String) (class_name : String) (hours : Int)
  | task (task_name : String) (hours : Rat)
  deriving Repr, DecidableEq

/-- The derived `TeacherWorkload` value returned by `calculateTeacherWorkload`. -/
structure TeacherWorkload where
  teacher_id : Nat
  teacher_name : String
  total_jtm_hours : Int
  total_task_equivalent : Rat
  total_workload : Rat
  status : WorkloadStatus
  details : List WorkloadDetail
  deriving Repr, DecidableEq

/-- The JTM query of `calculateTeacherWorkload`: rows of `jtmAssignmentsTable`
for (teacher, academic year) inner-joined with `subjectsTable` and
`classesTable`, projected to (subject name, class name, allocated hours). -/
def jtmJoinedRows (db : DB) (teacherId academicYearId : Nat) :
    List (String × String × Int) :=
  (db.jtmAssignments.filter
      (fun a => a.teacher_id == teacherId && a.academic_year_id == academicYearId)).filterMap
    (fun a =>
      match findSubject db a.subject_id, findClass db a.class_id with
      | some s, some c => some (s.name, c.class_name, a.allocated_hours)
      | _, _ => none)

/-- The task query of `calculateTeacherWorkload`: rows of `taskAssignmentsTable`
for (teacher, academic year) inner-joined with `additionalTasksTable`,
projected to (task name, jp_equivalent). -/
def taskJoinedRows (db : DB) (teacherId academicYearId : Nat) :
    List (String × Rat) :=
  (db.taskAssignments.filter
      (fun t => t.teacher_id == teacherId && t.academic_year_id == academicYearId)).filterMap
    (fun t => (findTask db t.task_id).map (fun task => (task.name, task.jp_equivalent)))

/-- `calculateTeacherWorkload` from `teacher_workload.ts`: throws `NotFound`
when the teacher is absent, otherwise sums the two joined queries and
classifies the total. -/
def calculateTeacherWorkload (db : DB) (teacherId academicYearId : Nat) :
    Except String TeacherWorkload :=
  match findTeacher db teacherId with
  | none => .error ("Teacher with id " ++ toString teacherId ++ " not found")
  | some teacher =>
    let jtmAssignments := jtmJoinedRows db teacherId academicYearId
    let taskAssignments := taskJoinedRows db teacherId academicYearId
    let totalJtmHours : Int := jtmAssignments.foldl (fun sum a => sum + a.2.2) 0
    let totalTaskEquivalent : Rat := taskAssignments.foldl (fun sum a => sum + a.2) 0
    let totalWorkload : Rat := (totalJtmHours : Rat) + totalTaskEquivalent
    .ok
      { teacher_id := teacherId
        teacher_name := teacher.name
        total_jtm_hours := totalJtmHours
        total_task_equivalent := totalTaskEquivalent
        total_workload := totalWorkload
        status := getWorkloadStatus totalWorkload
        details :=
          jtmAssignments.map (fun a => WorkloadDetail.jtm a.1 a.2.1 a.2.2) ++
          taskAssignments.map (fun a => WorkloadDetail.task a.1 a.2) }

/-- `Array.reduce((sum, a) => sum + f(a), init)` equals `init` plus the sum of `f`. -/
theorem foldl_add_eq_sum {α M : Type} [AddCommMonoid M] (l : List α) (f : α → M) :
    ∀ init : M, l.foldl (fun sum a => sum + f a) init = init + (l.map f).sum := by
  induction l with
  | nil => intro init; simp
  | cons x xs ih =>
      intro init
      simp only [List.foldl_cons, List.map_cons, List.sum_cons, ih]
      rw [add_assoc]

/-- A `filterMap` whose function succeeds on every element of the list is a `map`. -/
theorem filterMap_eq_map_of_forall {α β : Type} (l : List α) (p : α → Option β)
    (g : α → β) (h : ∀ a ∈ l, p a = some (g a)) : l.filterMap p = l.map g := by
  induction l with
  | nil => simp
  | cons x xs ih =>
      have hx := h x (by simp)
      simp only [List.filterMap_cons, hx, List.map_cons]
      exact congrArg (g x :: ·) (ih (fun a ha => h a (by simp [ha])))

/-- Subject name seen through the inner join (defaults never used when the
foreign key resolves). -/
def joinedSubjectName (db : DB) (a : JtmAssignment) : String :=
  ((findSubject db a.subject_id).map (fun s => s.name)).getD ""

/-- Class name seen through the inner join. -/
def joinedClassName (db : DB) (a : JtmAssignment) : String :=
  ((findClass db a.class_id).map (fun c => c.class_name)).getD ""

/-- Task name seen through the inner join. -/
def joinedTaskName (db : DB) (t : TaskAssignment) : String :=
  ((findTask db t.task_id).map (fun task => task.name)).getD ""

/-- `jp_equivalent` of the task referenced by a task-assignment row. -/
def joinedTaskJp (db : DB) (t : TaskAssignment) : Rat :=
  ((findTask db t.task_id).map (fun task => task.jp_equivalent)).getD 0

/-- The raw `jtmAssignmentsTable` rows of a teacher for an academic year. -/
def jtmRowsOf (db : DB) (teacherId academicYearId : Nat) : List JtmAssignment :=
  db.jtmAssignments.filter
    (fun a => a.teacher_id == teacherId && a.academic_year_id == academicYearId)

/-- The raw `taskAssignmentsTable` rows of a teacher for an academic year. -/
def taskRowsOf (db : DB) (teacherId academicYearId : Nat) : List TaskAssignment :=
  db.taskAssignments.filter
    (fun t => t.teacher_id == teacherId && t.academic_year_id == academicYearId)

/-- Under referential integrity of subject and class foreign keys, the JTM
inner join drops no row. -/
theorem jtmJoinedRows_eq (db : DB) (tid yid : Nat)
    (hS : ∀ a ∈ jtmRowsOf db tid yid, (findSubject db a.subject_id).isSome)
    (hC : ∀ a ∈ jtmRowsOf db tid yid, (findClass db a.class_id).isSome) :
    jtmJoinedRows db tid yid =
      (jtmRowsOf db tid yid).map
        (fun a => (joinedSubjectName db a, joinedClassName db a, a.allocated_hours)) := by
  apply filterMap_eq_map_of_forall
  intro a ha
  obtain ⟨s, hs⟩ := Option.isSome_iff_exists.mp (hS a ha)
  obtain ⟨c, hc⟩ := Option.isSome_iff_exists.mp (hC a ha)
  simp [hs, hc, joinedSubjectName, joinedClassName]

/-- Under referential integrity of the task foreign key, the task inner join
drops no row. -/
theorem taskJoinedRows_eq (db : DB) (tid yid : Nat)
    (hT : ∀ t ∈ taskRowsOf db tid yid, (findTask db t.task_id).isSome) :
    taskJoinedRows db tid yid =
      (taskRowsOf db tid yid).map
        (fun t => (joinedTaskName db t, joinedTaskJp db t)) := by
  apply filterMap_eq_map_of_forall
  intro t ht
  obtain ⟨task, htask⟩ := Option.isSome_iff_exists.mp (hT t ht)
  simp [htask, joinedTaskName, joinedTaskJp]

/-- **C2.** `calculateTeacherWorkload` fails with the NotFound error naming the
teacher id exactly when the teacher is absent; otherwise it returns the sum of
`allocated_hours` over the teacher's JTM rows of that year, the sum of
`jp_equivalent` over the teacher's task rows of that year, their exact sum as
`total_workload`, and a details list of the JTM entries followed by the task
entries.  With no matching rows (e.g. a non-existent academic year) all totals
are 0 and no error is raised.  Stated under referential integrity of the
subject / class / task foreign keys of the relevant rows, which the store's
schema relationships provide. -/
theorem calculateTeacherWorkload_spec (db : DB) (tid yid : Nat)
    (hS : ∀ a ∈ jtmRowsOf db tid yid, (findSubject db a.subject_id).isSome)
    (hC : ∀ a ∈ jtmRowsOf db tid yid, (findClass db a.class_id).isSome)
    (hT : ∀ t ∈ taskRowsOf db tid yid, (findTask db t.task_id).isSome) :
    ((∃ e, calculateTeacherWorkload db tid yid = .error e) ↔ findTeacher db tid = none) ∧
    (calculateTeacherWorkload db tid yid =
        .error ("Teacher with id " ++ toString tid ++ " not found") ↔
      findTeacher db tid = none) ∧
    (∀ w, calculateTeacherWorkload db tid yid = .ok w →
      w.total_jtm_hours = ((jtmRowsOf db tid yid).map (fun a => a.allocated_hours)).sum ∧
      w.total_task_equivalent = ((taskRowsOf db tid yid).map (joinedTaskJp db)).sum ∧
      w.total_workload = (w.total_jtm_hours : Rat) + w.total_task_equivalent ∧
      w.status = getWorkloadStatus w.total_workload ∧
      w.details =
        (jtmRowsOf db tid yid).map
          (fun a => WorkloadDetail.jtm (joinedSubjectName db a) (joinedClassName db a)
            a.allocated_hours) ++
        (taskRowsOf db tid yid).map
          (fun t => WorkloadDetail.task (joinedTaskName db t) (joinedTaskJp db t))) := by
  have hjtm := jtmJoinedRows_eq db tid yid hS hC
  have htask := taskJoinedRows_eq db tid yid hT
  unfold calculateTeacherWorkload
  cases h : findTeacher db tid with
  | none => simp [h]
  | some teacher =>
      refine ⟨by simp [h], by simp [h], ?_⟩
      intro w hw
      rw [Except.ok.injEq] at hw
      subst hw
      refine ⟨?_, ?_, rfl, rfl, ?_⟩
      · rw [hjtm, foldl_add_eq_sum]
        simp only [zero_add, List.map_map]
        rfl
      · rw [htask,
          foldl_add_eq_sum ((taskRowsOf db tid yid).map
            (fun t => (joinedTaskName db t, joinedTaskJp db t))) (fun a => a.2) 0]
        simp only [zero_add, List.map_map]
        rfl
      · rw [hjtm, htask, List.map_map, List.map_map]
        rfl

/-- A concrete store: one teacher, year (ceiling 38), subject, class, one
additional task worth 4 JP, one 20-hour JTM assignment and one task
assignment. -/
def dbW : DB :=
  { teachers := [⟨1, "Andi", "197001011998021001"⟩]
    academicYears := [⟨1, "2024/2025", 1, "Kurikulum Merdeka", 38, true⟩]
    subjects := [⟨1, "MTK", "Matematika", 5⟩]
    classes := [⟨1, 7, "A", "7A", 1⟩]
    additionalTasks := [⟨1, "Wali Kelas", "Homeroom", 4⟩]
    jtmAssignments := [⟨1, 1, 1, 1, 1, 20⟩]
    taskAssignments := [⟨1, 1, 1, 1, none⟩] }

/-- Witness for C2 at the concrete store `dbW`, teacher 1, year 1. -/
theorem calculateTeacherWorkload_spec_witness :
    ((∃ e, calculateTeacherWorkload dbW 1 1 = .error e) ↔ findTeacher dbW 1 = none) ∧
    (calculateTeacherWorkload dbW 1 1 =
        .error ("Teacher with id " ++ toString 1 ++ " not found") ↔
      findTeacher dbW 1 = none) ∧
    (∀ w, calculateTeacherWorkload dbW 1 1 = .ok w →
      w.total_jtm_hours = ((jtmRowsOf dbW 1 1).map (fun a => a.allocated_hours)).sum ∧
      w.total_task_equivalent = ((taskRowsOf dbW 1 1).map (joinedTaskJp dbW)).sum ∧
      w.total_workload = (w.total_jtm_hours : Rat) + w.total_task_equivalent ∧
      w.status = getWorkloadStatus w.total_workload ∧
      w.details =
        (jtmRowsOf dbW 1 1).map
          (fun a => WorkloadDetail.jtm (joinedSubjectName dbW a) (joinedClassName dbW a)
            a.allocated_hours) ++
        (taskRowsOf dbW 1 1).map
          (fun t => WorkloadDetail.task (joinedTaskName dbW t) (joinedTaskJp dbW t))) :=
  calculateTeacherWorkload_spec dbW 1 1 (by decide) (by decide) (by decide)

/-- `Array.from(new Set(xs))`: de-duplicate, keeping first-occurrence order. -/
def jsSetDedup (xs : List Nat) : List Nat :=
  xs.foldl (fun acc x => if x ∈ acc then acc else acc ++ [x]) []

/-- Membership in the `Set`-accumulating fold. -/
theorem jsSetDedup_foldl_mem (xs : List Nat) :
    ∀ (acc : List Nat) (y : Nat),
      (y ∈ xs.foldl (fun acc x => if x ∈ acc then acc else acc ++ [x]) acc ↔
        y ∈ acc ∨ y ∈ xs) := by
  induction xs with
  | nil => simp
  | cons x xs ih =>
      intro acc y
      by_cases hx : x ∈ acc
      · simp only [List.foldl_cons, if_pos hx, ih, List.mem_cons]
        constructor
        · rintro (h | h)
          · exact Or.inl h
          · exact Or.inr (Or.inr h)
        · rintro (h | h | h)
          · exact Or.inl h
          · exact Or.inl (h ▸ hx)
          · exact Or.inr h
      · simp only [List.foldl_cons, if_neg hx, ih, List.mem_append, List.mem_singleton,
          List.mem_cons]
        tauto
  
/-- The `Set`-accumulating fold preserves `Nodup`. -/
theorem jsSetDedup_foldl_nodup (xs : List Nat) :
    ∀ acc : List Nat, acc.Nodup →
      (xs.foldl (fun acc x => if x ∈ acc then acc else acc ++ [x]) acc).Nodup := by
  induction xs with
  | nil => intro acc h; simpa using h
  | cons x xs ih =>
      intro acc hacc
      by_cases hx : x ∈ acc
      · simpa [List.foldl_cons, if_pos hx] using ih acc hacc
      · have hnd : (acc ++ [x]).Nodup := by simp [List.nodup_append, hacc, hx]
        simpa [List.foldl_cons, if_neg hx] using ih (acc ++ [x]) hnd

/-- `x ∈ jsSetDedup xs ↔ x ∈ xs`. -/
theorem jsSetDedup_mem (xs : List Nat) (y : Nat) : y ∈ jsSetDedup xs ↔ y ∈ xs := by
  unfold jsSetDedup
  rw [jsSetDedup_foldl_mem]
  simp

/-- `jsSetDedup` returns a duplicate-free list. -/
theorem jsSetDedup_nodup (xs : List Nat) : (jsSetDedup xs).Nodup :=
  jsSetDedup_foldl_nodup xs [] List.nodup_nil

/-- Teacher ids of the JTM assignments of an academic year (first query of
`getAllTeacherWorkloads`). -/
def jtmTeacherIds (db : DB) (academicYearId : Nat) : List Nat :=
  (db.jtmAssignments.filter (fun a => a.academic_year_id == academicYearId)).map
    (fun a => a.teacher_id)

/-- Teacher ids of the task assignments of an academic year (second query of
`getAllTeacherWorkloads`). -/
def taskTeacherIds (db : DB) (academicYearId : Nat) : List Nat :=
  (db.taskAssignments.filter (fun t => t.academic_year_id == academicYearId)).map
    (fun t => t.teacher_id)

/-- `allTeacherIds` in `getAllTeacherWorkloads`: de-duplicated union of the
teacher ids appearing in JTM or task assignments of the year. -/
def allTeacherIds (db : DB) (academicYearId : Nat) : List Nat :=
  jsSetDedup (jtmTeacherIds db academicYearId ++ taskTeacherIds db academicYearId)

/-- `Promise.all(allTeacherIds.map(teacherId => calculateTeacherWorkload(...)))`:
sequence of workload computations, failing if any one fails. -/
def workloadsFor (db : DB) (academicYearId : Nat) :
    List Nat → Except String (List TeacherWorkload)
  | [] => .ok []
  | tid :: rest =>
      match calculateTeacherWorkload db tid academicYearId with
      | .error e => .error e
      | .ok w =>
          match workloadsFor db academicYearId rest with
          | .error e => .error e
          | .ok ws => .ok (w :: ws)

/-- `getAllTeacherWorkloads` from `teacher_workload.ts`. -/
def getAllTeacherWorkloads (db : DB) (academicYearId : Nat) :
    Except String (List TeacherWorkload) :=
  workloadsFor db academicYearId (allTeacherIds db academicYearId)

/-- A successful workload computation reports the requested teacher id. -/
theorem calculateTeacherWorkload_teacher_id (db : DB) (tid yid : Nat)
    (w : TeacherWorkload) (h : calculateTeacherWorkload db tid yid = .ok w) :
    w.teacher_id = tid := by
  unfold calculateTeacherWorkload at h
  cases hf : findTeacher db tid with
  | none => rw [hf] at h; exact absurd h (by simp)
  | some teacher =>
      rw [hf] at h
      rw [Except.ok.injEq] at h
      rw [← h]

/-- A successful `workloadsFor` returns exactly one workload per requested id,
in order. -/
theorem workloadsFor_map_teacher_id (db : DB) (yid : Nat) :
    ∀ (ids : List Nat) (ws : List TeacherWorkload),
      workloadsFor db yid ids = .ok ws → ws.map (fun w => w.teacher_id) = ids := by
  intro ids
  induction ids with
  | nil => intro ws h; simp only [workloadsFor] at h; cases h; rfl
  | cons tid rest ih =>
      intro ws h
      simp only [workloadsFor] at h
      cases hw : calculateTeacherWorkload db tid yid with
      | error e => rw [hw] at h; exact absurd h (by simp)
      | ok w =>
          rw [hw] at h
          cases hrest : workloadsFor db yid rest with
          | error e => rw [hrest] at h; exact absurd h (by simp)
          | ok ws' =>
              rw [hrest] at h
              rw [Except.ok.injEq] at h
              cases h
              simp [ih ws' hrest, calculateTeacherWorkload_teacher_id db tid yid w hw]

/-- **C6.** `getAllTeacherWorkloads` returns one workload per teacher in the
de-duplicated union of teacher ids with any JTM or task assignment in the
year, and no others; teachers without assignments never appear, and the result
is the empty list (not an error) when no assignment matches the year —
including when the academic year does not exist. -/
theorem getAllTeacherWorkloads_spec (db : DB) (yid : Nat) :
    ((db.jtmAssignments.filter (fun a => a.academic_year_id == yid) = [] ∧
        db.taskAssignments.filter (fun t => t.academic_year_id == yid) = []) →
      getAllTeacherWorkloads db yid = .ok []) ∧
    (∀ ws, getAllTeacherWorkloads db yid = .ok ws →
      ws.map (fun w => w.teacher_id) = allTeacherIds db yid) ∧
    (allTeacherIds db yid).Nodup ∧
    (∀ x, x ∈ allTeacherIds db yid ↔
      (x ∈ jtmTeacherIds db yid ∨ x ∈ taskTeacherIds db yid)) := by
  refine ⟨?_, ?_, jsSetDedup_nodup _, ?_⟩
  · rintro ⟨h1, h2⟩
    unfold getAllTeacherWorkloads allTeacherIds jtmTeacherIds taskTeacherIds
    rw [h1, h2]
    rfl
  · intro ws h
    exact workloadsFor_map_teacher_id db yid (allTeacherIds db yid) ws h
  · intro x
    unfold allTeacherIds
    rw [jsSetDedup_mem]
    simp

/-- Witness for C6: at `dbW` and the non-existent academic year 2 there are no
assignments and the result is the empty list; at year 1 the single workload
list carries exactly teacher 1. -/
theorem getAllTeacherWorkloads_spec_witness :
    getAllTeacherWorkloads dbW 2 = .ok [] ∧
    (∀ ws, getAllTeacherWorkloads dbW 1 = .ok ws →
      ws.map (fun w => w.teacher_id) = allTeacherIds dbW 1) :=
  ⟨(getAllTeacherWorkloads_spec dbW 2).1 (by decide),
   (getAllTeacherWorkloads_spec dbW 1).2.1⟩

/-- Result record of `getWorkloadValidationSummary`. -/
structure WorkloadSummary where
  total_teachers : Nat
  layak_count : Nat
  lebih_count : Nat
  kurang_count : Nat
  average_workload : Rat
  deriving Repr, DecidableEq

/-- `getWorkloadValidationSummary` from `teacher_workload.ts`: counts the
statuses over `getAllTeacherWorkloads` and averages the total workloads,
using `0` for the empty list. -/
def getWorkloadValidationSummary (db : DB) (academicYearId : Nat) :
    Except String WorkloadSummary :=
  match getAllTeacherWorkloads db academicYearId with
  | .error e => .error e
  | .ok allWorkloads =>
      .ok
        { total_teachers := allWorkloads.length
          layak_count :=
            (allWorkloads.filter (fun w => w.status == WorkloadStatus.layak)).length
          lebih_count :=
            (allWorkloads.filter (fun w => w.status == WorkloadStatus.lebih)).length
          kurang_count :=
            (allWorkloads.filter (fun w => w.status == WorkloadStatus.kurang)).length
          average_workload :=
            if allWorkloads.length > 0 then
              allWorkloads.foldl (fun sum w => sum + w.total_workload) 0 /
                (allWorkloads.length : Rat)
            else 0 }

/-- **C7.** `getWorkloadValidationSummary` reports the arithmetic mean of the
total workloads when the workload list is non-empty, and exactly 0 (together
with zero counts) when it is empty. -/
theorem getWorkloadValidationSummary_spec (db : DB) (yid : Nat) :
    ∀ s, getWorkloadValidationSummary db yid = .ok s →
      ∃ ws, getAllTeacherWorkloads db yid = .ok ws ∧
        (ws ≠ [] →
          s.average_workload = (ws.map (fun w => w.total_workload)).sum / (ws.length : Rat)) ∧
        (ws = [] →
          s.total_teachers = 0 ∧ s.layak_count = 0 ∧ s.lebih_count = 0 ∧
            s.kurang_count = 0 ∧ s.average_workload = 0) := by
  intro s hs
  unfold getWorkloadValidationSummary at hs
  cases h : getAllTeacherWorkloads db yid with
  | error e => rw [h] at hs; exact absurd hs (by simp)
  | ok ws =>
      rw [h] at hs
      rw [Except.ok.injEq] at hs
      refine ⟨ws, rfl, ?_, ?_⟩
      · intro hne
        have hpos : 0 < ws.length := List.length_pos.mpr hne
        rw [← hs]
        simp only [if_pos hpos]
        rw [foldl_add_eq_sum, zero_add]
      · intro he
        subst he
        rw [← hs]
        simp

/-- Witness for C7 at `dbW` and the assignment-free academic year 2: the
workload list is empty and the summary is exactly zero. -/
theorem getWorkloadValidationSummary_spec_witness :
    ∃ ws, getAllTeacherWorkloads dbW 2 = .ok ws ∧
      (ws ≠ [] →
        (⟨0, 0, 0, 0, 0⟩ : WorkloadSummary).average_workload =
          (ws.map (fun w => w.total_workload)).sum / (ws.length : Rat)) ∧
      (ws = [] →
        (⟨0, 0, 0, 0, 0⟩ : WorkloadSummary).total_teachers = 0 ∧
          (⟨0, 0, 0, 0, 0⟩ : WorkloadSummary).layak_count = 0 ∧
          (⟨0, 0, 0, 0, 0⟩ : WorkloadSummary).lebih_count = 0 ∧
          (⟨0, 0, 0, 0, 0⟩ : WorkloadSummary).kurang_count = 0 ∧
          (⟨0, 0, 0, 0, 0⟩ : WorkloadSummary).average_workload = 0) :=
  getWorkloadValidationSummary_spec dbW 2 ⟨0, 0, 0, 0, 0⟩ (by rfl)

/-- Each workload has exactly one of the three statuses, so the three status
counts partition any workload list. -/
theorem status_counts_partition (ws : List TeacherWorkload) :
    (ws.filter (fun w => w.status == WorkloadStatus.layak)).length +
      (ws.filter (fun w => w.status == WorkloadStatus.lebih)).length +
      (ws.filter (fun w => w.status == WorkloadStatus.kurang)).length = ws.length := by
  induction ws with
  | nil => rfl
  | cons w ws ih =>
      have rw1 : ∀ (s : WorkloadStatus) (l : List TeacherWorkload) (x : TeacherWorkload),
          List.filter (fun w => w.status == s) (x :: l) =
            if x.status = s then x :: List.filter (fun w => w.status == s) l
            else List.filter (fun w => w.status == s) l := by
        intro s l x
        by_cases h : x.status = s
        · simp [List.filter_cons, h]
        · simp [List.filter_cons, h]
      rw [rw1, rw1, rw1]
      cases hw : w.status <;> simp [hw] <;> omega

/-- **C10.** Whenever `getWorkloadValidationSummary` succeeds, the three status
counts partition the teacher set: `layak_count + lebih_count + kurang_count =
total_teachers`. -/
theorem getWorkloadValidationSummary_partition (db : DB) (yid : Nat) :
    ∀ s, getWorkloadValidationSummary db yid = .ok s →
      s.layak_count + s.lebih_count + s.kurang_count = s.total_teachers := by
  intro s hs
  unfold getWorkloadValidationSummary at hs
  cases h : getAllTeacherWorkloads db yid with
  | error e => rw [h] at hs; exact absurd hs (by simp)
  | ok ws =>
      rw [h] at hs
      rw [Except.ok.injEq] at hs
      rw [← hs]
      exact status_counts_partition ws

/-- Witness for C10 at `dbW`, academic year 2. -/
theorem getWorkloadValidationSummary_partition_witness :
    (⟨0, 0, 0, 0, 0⟩ : WorkloadSummary).layak_count +
      (⟨0, 0, 0, 0, 0⟩ : WorkloadSummary).lebih_count +
      (⟨0, 0, 0, 0, 0⟩ : WorkloadSummary).kurang_count =
      (⟨0, 0, 0, 0, 0⟩ : WorkloadSummary).total_teachers :=
  getWorkloadValidationSummary_partition dbW 2 ⟨0, 0, 0, 0, 0⟩ (by rfl)

/-- Input record `CreateJtmAssignmentInput`. -/
structure CreateJtmAssignmentInput where
  academic_year_id : Nat
  teacher_id : Nat
  subject_id : Nat
  class_id : Nat
  allocated_hours : Int
  deriving Repr, DecidableEq

/-- Result shape of `validateJtmAllocation`. -/
structure ValidationResult where
  isValid : Bool
  errors : List String
  warnings : List String
  deriving Repr, DecidableEq

/-- The ceiling-exceeded error message of `validateJtmAllocation`. -/
def exceedsLimitMsg (newTotal curriculumLimit : Int) : String :=
  "Total allocation (" ++ toString newTotal ++ " hours) exceeds curriculum limit (" ++
    toString curriculumLimit ++ " hours) for this class"

/-- The approaching-limit warning message of `validateJtmAllocation`. -/
def approachingLimitMsg (newTotal curriculumLimit : Int) : String :=
  "Total allocation (" ++ toString newTotal ++ " hours) is approaching curriculum limit (" ++
    toString curriculumLimit ++ " hours)"

/-- The duplicate-assignment error message of `validateJtmAllocation`. -/
def duplicateMsg : String :=
  "This teacher is already assigned to teach this subject in this class"

/-- The `NotFound` message for an academic year. -/
def yearNotFoundMsg (id : Nat) : String :=
  "Academic year with id " ++ toString id ++ " not found"

/-- `validateJtmAllocation`'s second query: existing JTM rows of the class in
the academic year. -/
def classAssignments (db : DB) (classId academicYearId : Nat) : List JtmAssignment :=
  db.jtmAssignments.filter
    (fun a => a.class_id == classId && a.academic_year_id == academicYearId)

/-- `validateJtmAllocation`'s duplicate query: rows matching the whole
(academic year, teacher, subject, class) tuple. -/
def duplicateAssignments (db : DB) (input : CreateJtmAssignmentInput) : List JtmAssignment :=
  db.jtmAssignments.filter
    (fun a => a.academic_year_id == input.academic_year_id &&
      a.teacher_id == input.teacher_id && a.subject_id == input.subject_id &&
      a.class_id == input.class_id)

/-- `validateJtmAllocation` from the JTM-assignment handler: resolve the
academic year (immediate failure result if absent), sum the class's current
hours, emit the ceiling error / approaching warning / duplicate error, and
report `isValid` iff no error. -/
def validateJtmAllocation (db : DB) (input : CreateJtmAssignmentInput) : ValidationResult :=
  match findAcademicYear db input.academic_year_id with
  | none =>
      { isValid := false
        errors := [yearNotFoundMsg input.academic_year_id]
        warnings := [] }
  | some academicYear =>
      let currentTotal :=
        (classAssignments db input.class_id input.academic_year_id).foldl
          (fun sum a => sum + a.allocated_hours) 0
      let newTotal := currentTotal + input.allocated_hours
      let curriculumLimit := academicYear.total_time_allocation
      let ceilingErrors :=
        if newTotal > curriculumLimit then [exceedsLimitMsg newTotal curriculumLimit] else []
      let warnings :=
        if (newTotal : Rat) > (curriculumLimit : Rat) * (9 / 10) ∧ newTotal ≤ curriculumLimit
        then [approachingLimitMsg newTotal curriculumLimit] else []
      let duplicateErrors :=
        if 0 < (duplicateAssignments db input).length then [duplicateMsg] else []
      let errors := ceilingErrors ++ duplicateErrors
      { isValid := errors.isEmpty, errors := errors, warnings := warnings }

/-- The ceiling error can never be confused with the duplicate error. -/
theorem exceedsLimitMsg_ne_duplicateMsg (n l : Int) : exceedsLimitMsg n l ≠ duplicateMsg := by
  intro h
  have hd := congrArg String.data h
  unfold exceedsLimitMsg duplicateMsg at hd
  simp only [String.data_append] at hd
  have h1 := congrArg (fun t : List Char => t[1]?) hd
  simp at h1

/-- `newTotal` of `validateJtmAllocation`: the class's existing allocated
hours in the year plus the proposed hours. -/
def newTotalFor (db : DB) (input : CreateJtmAssignmentInput) : Int :=
  ((classAssignments db input.class_id input.academic_year_id).map
    (fun a => a.allocated_hours)).sum + input.allocated_hours

/-- The `reduce` over the class's rows is the sum of their hours. -/
theorem classAssignments_foldl_eq (db : DB) (cid yid : Nat) :
    (classAssignments db cid yid).foldl (fun sum a => sum + a.allocated_hours) 0 =
      ((classAssignments db cid yid).map (fun a => a.allocated_hours)).sum := by
  rw [foldl_add_eq_sum, zero_add]

/-- **C3.** For an existing academic year, `validateJtmAllocation` appends the
ceiling error iff `newTotal` exceeds the curriculum limit, appends the
approaching warning iff `newTotal` is strictly above 90% of the limit and at
most the limit (so error and warning are mutually exclusive), appends the
duplicate error iff a row matches the whole tuple (independently of the
ceiling outcome), and `isValid` holds iff `errors` is empty, warnings playing
no role. -/
theorem validateJtmAllocation_spec (db : DB) (input : CreateJtmAssignmentInput)
    (y : AcademicYear) (hy : findAcademicYear db input.academic_year_id = some y) :
    (exceedsLimitMsg (newTotalFor db input) y.total_time_allocation ∈
        (validateJtmAllocation db input).errors ↔
      newTotalFor db input > y.total_time_allocation) ∧
    (approachingLimitMsg (newTotalFor db input) y.total_time_allocation ∈
        (validateJtmAllocation db input).warnings ↔
      ((newTotalFor db input : Rat) > (y.total_time_allocation : Rat) * (9 / 10) ∧
        newTotalFor db input ≤ y.total_time_allocation)) ∧
    (¬(newTotalFor db input > y.total_time_allocation ∧
        (newTotalFor db input : Rat) > (y.total_time_allocation : Rat) * (9 / 10) ∧
        newTotalFor db input ≤ y.total_time_allocation)) ∧
    (duplicateMsg ∈ (validateJtmAllocation db input).errors ↔
      duplicateAssignments db input ≠ []) ∧
    ((validateJtmAllocation db input).errors =
      (if newTotalFor db input > y.total_time_allocation then
        [exceedsLimitMsg (newTotalFor db input) y.total_time_allocation]
      else []) ++
        (if duplicateAssignments db input ≠ [] then [duplicateMsg] else [])) ∧
    ((validateJtmAllocation db input).warnings =
      (if (newTotalFor db input : Rat) > (y.total_time_allocation : Rat) * (9 / 10) ∧
          newTotalFor db input ≤ y.total_time_allocation then
        [approachingLimitMsg (newTotalFor db input) y.total_time_allocation]
      else [])) ∧
    ((validateJtmAllocation db input).isValid = true ↔
      (validateJtmAllocation db input).errors = []) := by
  have hne := exceedsLimitMsg_ne_duplicateMsg (newTotalFor db input) y.total_time_allocation
  have hne' : duplicateMsg ≠ exceedsLimitMsg (newTotalFor db input) y.total_time_allocation :=
    fun h => hne h.symm
  have hT : (classAssignments db input.class_id input.academic_year_id).foldl
      (fun sum a => sum + a.allocated_hours) 0 + input.allocated_hours =
        newTotalFor db input := by
    rw [classAssignments_foldl_eq]; rfl
  have hdup : (0 < (duplicateAssignments db input).length) ↔
      duplicateAssignments db input ≠ [] := List.length_pos
  simp only [validateJtmAllocation, hy, hT]
  by_cases h1 : newTotalFor db input > y.total_time_allocation
  · have h3 : ¬((newTotalFor db input : Rat) > (y.total_time_allocation : Rat) * (9 / 10) ∧
        newTotalFor db input ≤ y.total_time_allocation) := by
      rintro ⟨hb, hc⟩; omega
    by_cases h2 : duplicateAssignments db input = [] <;> simp_all
  · by_cases h2 : duplicateAssignments db input = [] <;>
      by_cases h3 : ((newTotalFor db input : Rat) > (y.total_time_allocation : Rat) * (9 / 10) ∧
        newTotalFor db input ≤ y.total_time_allocation) <;>
      simp_all

/-- The academic year stored in `dbW`. -/
def yearW : AcademicYear := ⟨1, "2024/2025", 1, "Kurikulum Merdeka", 38, true⟩

/-- A proposed assignment duplicating `dbW`'s existing (year 1, teacher 1,
subject 1, class 1) tuple with 10 further hours. -/
def inputW3 : CreateJtmAssignmentInput := ⟨1, 1, 1, 1, 10⟩

/-- Witness for C3 at `dbW` and `inputW3` (year exists, duplicate present,
`newTotal` = 30 against limit 38). -/
theorem validateJtmAllocation_spec_witness :
    (exceedsLimitMsg (newTotalFor dbW inputW3) yearW.total_time_allocation ∈
        (validateJtmAllocation dbW inputW3).errors ↔
      newTotalFor dbW inputW3 > yearW.total_time_allocation) ∧
    (approachingLimitMsg (newTotalFor dbW inputW3) yearW.total_time_allocation ∈
        (validateJtmAllocation dbW inputW3).warnings ↔
      ((newTotalFor dbW inputW3 : Rat) > (yearW.total_time_allocation : Rat) * (9 / 10) ∧
        newTotalFor dbW inputW3 ≤ yearW.total_time_allocation)) ∧
    (¬(newTotalFor dbW inputW3 > yearW.total_time_allocation ∧
        (newTotalFor dbW inputW3 : Rat) > (yearW.total_time_allocation : Rat) * (9 / 10) ∧
        newTotalFor dbW inputW3 ≤ yearW.total_time_allocation)) ∧
    (duplicateMsg ∈ (validateJtmAllocation dbW inputW3).errors ↔
      duplicateAssignments dbW inputW3 ≠ []) ∧
    ((validateJtmAllocation dbW inputW3).errors =
      (if newTotalFor dbW inputW3 > yearW.total_time_allocation then
        [exceedsLimitMsg (newTotalFor dbW inputW3) yearW.total_time_allocation]
      else []) ++
        (if duplicateAssignments dbW inputW3 ≠ [] then [duplicateMsg] else [])) ∧
    ((validateJtmAllocation dbW inputW3).warnings =
      (if (newTotalFor dbW inputW3 : Rat) > (yearW.total_time_allocation : Rat) * (9 / 10) ∧
          newTotalFor dbW inputW3 ≤ yearW.total_time_allocation then
        [approachingLimitMsg (newTotalFor dbW inputW3) yearW.total_time_allocation]
      else [])) ∧
    ((validateJtmAllocation dbW inputW3).isValid = true ↔
      (validateJtmAllocation dbW inputW3).errors = []) :=
  validateJtmAllocation_spec dbW inputW3 yearW (by rfl)

/-- **C4.** For a missing academic year, `validateJtmAllocation` returns
`isValid = false` with exactly one error naming the year id and no warnings,
independently of the JTM-assignment table (so no ceiling, warning or
duplicate check takes part in the outcome). -/
theorem validateJtmAllocation_year_missing (db : DB) (input : CreateJtmAssignmentInput)
    (hy : findAcademicYear db input.academic_year_id = none) :
    validateJtmAllocation db input =
      { isValid := false, errors := [yearNotFoundMsg input.academic_year_id], warnings := [] } ∧
    ∀ l : List JtmAssignment,
      validateJtmAllocation { db with jtmAssignments := l } input =
        { isValid := false, errors := [yearNotFoundMsg input.academic_year_id], warnings := [] } := by
  constructor
  · simp [validateJtmAllocation, hy]
  · intro l
    have hy2 : findAcademicYear { db with jtmAssignments := l } input.academic_year_id = none := hy
    simp [validateJtmAllocation, hy2]

/-- A proposed assignment referencing the non-existent academic year 99. -/
def inputW4 : CreateJtmAssignmentInput := ⟨99, 1, 1, 1, 10⟩

/-- Witness for C4 at `dbW` and `inputW4`. -/
theorem validateJtmAllocation_year_missing_witness :
    validateJtmAllocation dbW inputW4 =
      { isValid := false, errors := [yearNotFoundMsg inputW4.academic_year_id], warnings := [] } ∧
    ∀ l : List JtmAssignment,
      validateJtmAllocation { dbW with jtmAssignments := l } inputW4 =
        { isValid := false, errors := [yearNotFoundMsg inputW4.academic_year_id], warnings := [] } :=
  validateJtmAllocation_year_missing dbW inputW4 (by rfl)

/-- Per-subject entry of a class's allocation progress. -/
structure SubjectAllocation where
  subject_id : Nat
  subject_name : String
  allocated_hours : Int
  curriculum_hours : Int
  deriving Repr, DecidableEq

/-- Per-class record returned by `getJtmAllocationProgress`. -/
structure ClassProgress where
  class_id : Nat
  class_name : String
  total_allocated : Int
  curriculum_limit : Int
  progress_percentage : Rat
  subjects : List SubjectAllocation
  deriving Repr, DecidableEq

/-- `Math.round`: round to the nearest integer, half away from zero towards
positive infinity (`⌊x + 1/2⌋`). -/
def jsRound (x : Rat) : Int := ⌊x + 1 / 2⌋

/-- `Math.round(x * 100) / 100`: round to 2 decimal places. -/
def roundTo2 (x : Rat) : Rat := (jsRound (x * 100) : Rat) / 100

/-- The per-class query of `getJtmAllocationProgress`: the class's JTM rows of
the year inner-joined with `subjectsTable`. -/
def classJtmWithSubjects (db : DB) (classId academicYearId : Nat) :
    List (JtmAssignment × Subject) :=
  (classAssignments db classId academicYearId).filterMap
    (fun a => (findSubject db a.subject_id).map (fun s => (a, s)))

/-- The loop body of `getJtmAllocationProgress` for one class. -/
def classProgress (db : DB) (academicYearId : Nat) (curriculumLimit : Int)
    (classItem : SchoolClass) : ClassProgress :=
  let subjects := (classJtmWithSubjects db classItem.id academicYearId).map
    (fun r =>
      { subject_id := r.2.id
        subject_name := r.2.name
        allocated_hours := r.1.allocated_hours
        curriculum_hours := r.2.time_allocation : SubjectAllocation })
  let totalAllocated : Int := subjects.foldl (fun sum s => sum + s.allocated_hours) 0
  let progressPercentage : Rat :=
    if curriculumLimit > 0 then ((totalAllocated : Rat) / (curriculumLimit : Rat)) * 100 else 0
  { class_id := classItem.id
    class_name := classItem.class_name
    total_allocated := totalAllocated
    curriculum_limit := curriculumLimit
    progress_percentage := roundTo2 progressPercentage
    subjects := subjects }

/-- `getJtmAllocationProgress` from the JTM-assignment handler: requires the
academic year to exist, then builds one progress record per class of the
year. -/
def getJtmAllocationProgress (db : DB) (academicYearId : Nat) :
    Except String (List ClassProgress) :=
  let classes := db.classes.filter (fun c => c.academic_year_id == academicYearId)
  match findAcademicYear db academicYearId with
  | none => .error (yearNotFoundMsg academicYearId)
  | some academicYear =>
      .ok (classes.map (classProgress db academicYearId academicYear.total_time_allocation))

/-- Rounding fixes zero. -/
theorem roundTo2_zero : roundTo2 0 = 0 := by
  unfold roundTo2 jsRound
  norm_num

/-- **C5.** `getJtmAllocationProgress` fails with `NotFound` naming the year
exactly when the academic year is absent; otherwise it returns one record per
class of the year (classes without JTM assignments included, with zero totals
and an empty subjects list), and every record's `progress_percentage` is
`(total_allocated / total_time_allocation) * 100` rounded to 2 decimals, with
0 when the ceiling is not positive. -/
theorem getJtmAllocationProgress_spec (db : DB) (yid : Nat) :
    (findAcademicYear db yid = none →
      getJtmAllocationProgress db yid = .error (yearNotFoundMsg yid)) ∧
    (∀ y, findAcademicYear db yid = some y →
      ∃ res, getJtmAllocationProgress db yid = .ok res ∧
        res.map (fun r => r.class_id) =
          (db.classes.filter (fun c => c.academic_year_id == yid)).map (fun c => c.id) ∧
        (∀ r ∈ res,
          r.curriculum_limit = y.total_time_allocation ∧
          r.progress_percentage =
            (if 0 < y.total_time_allocation then
              roundTo2 (((r.total_allocated : Rat) / (y.total_time_allocation : Rat)) * 100)
            else 0) ∧
          (classAssignments db r.class_id yid = [] →
            r.total_allocated = 0 ∧ r.progress_percentage = 0 ∧ r.subjects = []))) := by
  constructor
  · intro hy
    simp [getJtmAllocationProgress, hy]
  · intro y hy
    refine ⟨(db.classes.filter (fun c => c.academic_year_id == yid)).map
      (classProgress db yid y.total_time_allocation), ?_, ?_, ?_⟩
    · simp [getJtmAllocationProgress, hy]
    · rw [List.map_map]
      rfl
    · intro r hr
      obtain ⟨c, hc, rfl⟩ := List.mem_map.mp hr
      refine ⟨rfl, ?_, ?_⟩
      · by_cases hL : 0 < y.total_time_allocation
        · simp only [classProgress, roundTo2]
          simp [hL]
        · simp only [classProgress, roundTo2]
          simp [hL]
          norm_num [jsRound]
      · intro hempty
        have hcid : (classProgress db yid y.total_time_allocation c).class_id = c.id := rfl
        rw [hcid] at hempty
        have hjoin : classJtmWithSubjects db c.id yid = [] := by
          unfold classJtmWithSubjects
          rw [hempty]
          rfl
        simp [classProgress, hjoin, roundTo2_zero]

/-- Witness for C5 at `dbW`, academic year 1 (one class, limit 38). -/
theorem getJtmAllocationProgress_spec_witness :
    ∃ res, getJtmAllocationProgress dbW 1 = .ok res ∧
      res.map (fun r => r.class_id) =
        (dbW.classes.filter (fun c => c.academic_year_id == 1)).map (fun c => c.id) ∧
      (∀ r ∈ res,
        r.curriculum_limit = yearW.total_time_allocation ∧
        r.progress_percentage =
          (if 0 < yearW.total_time_allocation then
            roundTo2 (((r.total_allocated : Rat) / (yearW.total_time_allocation : Rat)) * 100)
          else 0) ∧
        (classAssignments dbW r.class_id 1 = [] →
          r.total_allocated = 0 ∧ r.progress_percentage = 0 ∧ r.subjects = [])) :=
  (getJtmAllocationProgress_spec dbW 1).2 yearW (by rfl)

/-- The `NotFound` message for a teacher. -/
def teacherNotFoundMsg (id : Nat) : String :=
  "Teacher with id " ++ toString id ++ " not found"

/-- The `NotFound` message for a subject. -/
def subjectNotFoundMsg (id : Nat) : String :=
  "Subject with id " ++ toString id ++ " not found"

/-- The `NotFound` message for a class. -/
def classNotFoundMsg (id : Nat) : String :=
  "Class with id " ++ toString id ++ " not found"

/-- `createJtmAssignment` from the JTM-assignment handler: verify that the
academic year, teacher, subject and class exist (in that order, each missing
entity raising its own `NotFound` error), then insert the row.  The store
assigns the serial id; no ceiling or duplicate check is performed.  Returns
the inserted row together with the updated store. -/
def createJtmAssignment (db : DB) (input : CreateJtmAssignmentInput) :
    Except String (JtmAssignment × DB) :=
  if (findAcademicYear db input.academic_year_id).isNone then
    .error (yearNotFoundMsg input.academic_year_id)
  else if (findTeacher db input.teacher_id).isNone then
    .error (teacherNotFoundMsg input.teacher_id)
  else if (findSubject db input.subject_id).isNone then
    .error (subjectNotFoundMsg input.subject_id)
  else if (findClass db input.class_id).isNone then
    .error (classNotFoundMsg input.class_id)
  else
    let row : JtmAssignment :=
      { id := db.jtmAssignments.foldl (fun m a => max m a.id) 0 + 1
        academic_year_id := input.academic_year_id
        teacher_id := input.teacher_id
        subject_id := input.subject_id
        class_id := input.class_id
        allocated_hours := input.allocated_hours }
    .ok (row, { db with jtmAssignments := db.jtmAssignments ++ [row] })

/-- **C8.** Creation is decoupled from validation: `createJtmAssignment` only
checks that the referenced entities exist — each missing teacher, subject or
class yielding its own `NotFound` error naming the entity and id — and then
inserts, never re-running the ceiling or duplicate checks: it succeeds for
any state of the JTM-assignment table (duplicates and over-ceiling totals
included), and its outcome is entirely independent of that table.
(`validateJtmAllocation` performs no writes in this embedding by
construction: it returns only a `ValidationResult`, never a store.) -/
theorem createJtmAssignment_decoupled (db : DB) (input : CreateJtmAssignmentInput)
    (hy : (findAcademicYear db input.academic_year_id).isSome) :
    ((findTeacher db input.teacher_id).isNone →
      createJtmAssignment db input = .error (teacherNotFoundMsg input.teacher_id)) ∧
    ((findTeacher db input.teacher_id).isSome →
      (findSubject db input.subject_id).isNone →
        createJtmAssignment db input = .error (subjectNotFoundMsg input.subject_id)) ∧
    ((findTeacher db input.teacher_id).isSome →
      (findSubject db input.subject_id).isSome →
        (findClass db input.class_id).isNone →
          createJtmAssignment db input = .error (classNotFoundMsg input.class_id)) ∧
    ((findTeacher db input.teacher_id).isSome →
      (findSubject db input.subject_id).isSome →
        (findClass db input.class_id).isSome →
          ∃ row db2, createJtmAssignment db input = .ok (row, db2) ∧
            db2.jtmAssignments = db.jtmAssignments ++ [row] ∧
            row.academic_year_id = input.academic_year_id ∧
            row.teacher_id = input.teacher_id ∧
            row.subject_id = input.subject_id ∧
            row.class_id = input.class_id ∧
            row.allocated_hours = input.allocated_hours) ∧
    (∀ l : List JtmAssignment,
      (createJtmAssignment { db with jtmAssignments := l } input
          |>.toOption |>.isSome) =
        (createJtmAssignment db input |>.toOption |>.isSome)) := by
  obtain ⟨yv, hyv⟩ := Option.isSome_iff_exists.mp hy
  refine ⟨?_, ?_, ?_, ?_, ?_⟩
  · intro ht
    rw [Option.isNone_iff_eq_none] at ht
    simp [createJtmAssignment, hyv, ht]
  · intro ht hs
    obtain ⟨tv, htv⟩ := Option.isSome_iff_exists.mp ht
    rw [Option.isNone_iff_eq_none] at hs
    simp [createJtmAssignment, hyv, htv, hs]
  · intro ht hs hc
    obtain ⟨tv, htv⟩ := Option.isSome_iff_exists.mp ht
    obtain ⟨sv, hsv⟩ := Option.isSome_iff_exists.mp hs
    rw [Option.isNone_iff_eq_none] at hc
    simp [createJtmAssignment, hyv, htv, hsv, hc]
  · intro ht hs hc
    obtain ⟨tv, htv⟩ := Option.isSome_iff_exists.mp ht
    obtain ⟨sv, hsv⟩ := Option.isSome_iff_exists.mp hs
    obtain ⟨cv, hcv⟩ := Option.isSome_iff_exists.mp hc
    simp only [createJtmAssignment, hyv, htv, hsv, hcv, Option.isNone_some,
      Bool.false_eq_true, if_false]
    exact ⟨_, _, rfl, rfl, rfl, rfl, rfl, rfl, rfl⟩
  · intro l
    have e1 : findAcademicYear { db with jtmAssignments := l } input.academic_year_id =
      findAcademicYear db input.academic_year_id := rfl
    have e2 : findTeacher { db with jtmAssignments := l } input.teacher_id =
      findTeacher db input.teacher_id := rfl
    have e3 : findSubject { db with jtmAssignments := l } input.subject_id =
      findSubject db input.subject_id := rfl
    have e4 : findClass { db with jtmAssignments := l } input.class_id =
      findClass db input.class_id := rfl
    simp only [createJtmAssignment, e1, e2, e3, e4]
    by_cases b1 : (findAcademicYear db input.academic_year_id).isNone <;>
      by_cases b2 : (findTeacher db input.teacher_id).isNone <;>
      by_cases b3 : (findSubject db input.subject_id).isNone <;>
      by_cases b4 : (findClass db input.class_id).isNone <;>
      simp [b1, b2, b3, b4, Except.toOption]

/-- `dbW` with a 40-hour assignment already stored for (year 1, teacher 1,
subject 1, class 1): the class total already exceeds the 38-hour ceiling and
any further (1,1,1,1) assignment is a duplicate. -/
def dbDup : DB := { dbW with jtmAssignments := [⟨1, 1, 1, 1, 1, 40⟩] }

/-- Witness for C8: at `dbDup` the proposal `inputW3` duplicates the stored
tuple and pushes the class total to 50 > 38, yet creation succeeds. -/
theorem createJtmAssignment_decoupled_witness :
    duplicateAssignments dbDup inputW3 ≠ [] ∧
    newTotalFor dbDup inputW3 > yearW.total_time_allocation ∧
    (∃ row db2, createJtmAssignment dbDup inputW3 = .ok (row, db2) ∧
      db2.jtmAssignments = dbDup.jtmAssignments ++ [row] ∧
      row.academic_year_id = inputW3.academic_year_id ∧
      row.teacher_id = inputW3.teacher_id ∧
      row.subject_id = inputW3.subject_id ∧
      row.class_id = inputW3.class_id ∧
      row.allocated_hours = inputW3.allocated_hours) :=
  ⟨by decide, by decide,
   (createJtmAssignment_decoupled dbDup inputW3 (by rfl)).2.2.2.1 (by rfl) (by rfl) (by rfl)⟩

/-- The store seen as fallible queries: each query the validator, aggregator
and reporter issue may fail (a rejected database promise). -/
structure JtmStore where
  academicYearsById : Nat → Except String (List AcademicYear)
  teachersById : Nat → Except String (List Teacher)
  jtmByClassYear : Nat → Nat → Except String (List JtmAssignment)
  jtmByTuple : CreateJtmAssignmentInput → Except String (List JtmAssignment)
  jtmJoinedByTeacherYear : Nat → Nat → Except String (List (String × String × Int))
  taskJoinedByTeacherYear : Nat → Nat → Except String (List (String × Rat))
  classesByYear : Nat → Except String (List SchoolClass)
  classJtmWithSubjects : Nat → Nat → Except String (List (JtmAssignment × Subject))

/-- The reliable store over a `DB`: every query succeeds with the pure result. -/
def storeOf (db : DB) : JtmStore :=
  { academicYearsById := fun id => .ok (db.academicYears.filter (fun y => y.id == id))
    teachersById := fun id => .ok (db.teachers.filter (fun t => t.id == id))
    jtmByClassYear := fun cid yid => .ok (classAssignments db cid yid)
    jtmByTuple := fun input => .ok (duplicateAssignments db input)
    jtmJoinedByTeacherYear := fun tid yid => .ok (jtmJoinedRows db tid yid)
    taskJoinedByTeacherYear := fun tid yid => .ok (taskJoinedRows db tid yid)
    classesByYear := fun yid => .ok (db.classes.filter (fun c => c.academic_year_id == yid))
    classJtmWithSubjects := fun cid yid => .ok (classJtmWithSubjects db cid yid) }

/-- The body of `validateJtmAllocation`'s `try` block over a fallible store:
any failed query aborts with that failure. -/
def validateJtmAllocationRun (store : JtmStore) (input : CreateJtmAssignmentInput) :
    Except String ValidationResult :=
  match store.academicYearsById input.academic_year_id with
  | .error e => .error e
  | .ok academicYears =>
      match academicYears.head? with
      | none =>
          .ok { isValid := false
                errors := [yearNotFoundMsg input.academic_year_id]
                warnings := [] }
      | some academicYear =>
          match store.jtmByClassYear input.class_id input.academic_year_id with
          | .error e => .error e
          | .ok currentAssignments =>
              let currentTotal :=
                currentAssignments.foldl (fun sum a => sum + a.allocated_hours) 0
              let newTotal := currentTotal + input.allocated_hours
              let curriculumLimit := academicYear.total_time_allocation
              let ceilingErrors :=
                if newTotal > curriculumLimit then
                  [exceedsLimitMsg newTotal curriculumLimit]
                else []
              let warnings :=
                if (newTotal : Rat) > (curriculumLimit : Rat) * (9 / 10) ∧
                    newTotal ≤ curriculumLimit then
                  [approachingLimitMsg newTotal curriculumLimit]
                else []
              match store.jtmByTuple input with
              | .error e => .error e
              | .ok duplicateCheck =>
                  let duplicateErrors :=
                    if 0 < duplicateCheck.length then [duplicateMsg] else []
                  let errors := ceilingErrors ++ duplicateErrors
                  .ok { isValid := errors.isEmpty, errors := errors, warnings := warnings }

/-- `validateJtmAllocation` with its `catch` clause: a store failure is
converted into the synthetic system-error result instead of propagating. -/
def validateJtmAllocationSafe (store : JtmStore) (input : CreateJtmAssignmentInput) :
    ValidationResult :=
  match validateJtmAllocationRun store input with
  | .ok r => r
  | .error _ =>
      { isValid := false
        errors := ["Validation failed due to system error"]
        warnings := [] }

/-- `calculateTeacherWorkload` over a fallible store: its `catch` only logs
and rethrows, so failures pass through unchanged. -/
def calculateTeacherWorkloadRun (store : JtmStore) (teacherId academicYearId : Nat) :
    Except String TeacherWorkload :=
  match store.teachersById teacherId with
  | .error e => .error e
  | .ok teachers =>
      match teachers.head? with
      | none => .error (teacherNotFoundMsg teacherId)
      | some teacher =>
          match store.jtmJoinedByTeacherYear teacherId academicYearId with
          | .error e => .error e
          | .ok jtmAssignments =>
              match store.taskJoinedByTeacherYear teacherId academicYearId with
              | .error e => .error e
              | .ok taskAssignments =>
                  let totalJtmHours : Int :=
                    jtmAssignments.foldl (fun sum a => sum + a.2.2) 0
                  let totalTaskEquivalent : Rat :=
                    taskAssignments.foldl (fun sum a => sum + a.2) 0
                  let totalWorkload : Rat := (totalJtmHours : Rat) + totalTaskEquivalent
                  .ok
                    { teacher_id := teacherId
                      teacher_name := teacher.name
                      total_jtm_hours := totalJtmHours
                      total_task_equivalent := totalTaskEquivalent
                      total_workload := totalWorkload
                      status := getWorkloadStatus totalWorkload
                      details :=
                        jtmAssignments.map (fun a => WorkloadDetail.jtm a.1 a.2.1 a.2.2) ++
                        taskAssignments.map (fun a => WorkloadDetail.task a.1 a.2) }

/-- The per-class loop of `getJtmAllocationProgress` over a fallible store. -/
def classProgressRun (store : JtmStore) (academicYearId : Nat) (curriculumLimit : Int) :
    List SchoolClass → Except String (List ClassProgress)
  | [] => .ok []
  | classItem :: rest =>
      match store.classJtmWithSubjects classItem.id academicYearId with
      | .error e => .error e
      | .ok rows =>
          let subjects := rows.map
            (fun r =>
              { subject_id := r.2.id
                subject_name := r.2.name
                allocated_hours := r.1.allocated_hours
                curriculum_hours := r.2.time_allocation : SubjectAllocation })
          let totalAllocated : Int := subjects.foldl (fun sum s => sum + s.allocated_hours) 0
          let progressPercentage : Rat :=
            if curriculumLimit > 0 then
              ((totalAllocated : Rat) / (curriculumLimit : Rat)) * 100
            else 0
          match classProgressRun store academicYearId curriculumLimit rest with
          | .error e => .error e
          | .ok restProgress =>
              .ok
                ({ class_id := classItem.id
                   class_name := classItem.class_name
                   total_allocated := totalAllocated
                   curriculum_limit := curriculumLimit
                   progress_percentage := roundTo2 progressPercentage
                   subjects := subjects } :: restProgress)

/-- `getJtmAllocationProgress` over a fallible store: its `catch` only logs
and rethrows, so failures pass through unchanged. -/
def getJtmAllocationProgressRun (store : JtmStore) (academicYearId : Nat) :
    Except String (List ClassProgress) :=
  match store.classesByYear academicYearId with
  | .error e => .error e
  | .ok classes =>
      match store.academicYearsById academicYearId with
      | .error e => .error e
      | .ok academicYears =>
          match academicYears.head? with
          | none => .error (yearNotFoundMsg academicYearId)
          | some academicYear =>
              classProgressRun store academicYearId academicYear.total_time_allocation classes

/-- Over the reliable store, the fallible validator is exactly the pure one. -/
theorem validateJtmAllocationSafe_storeOf (db : DB) (input : CreateJtmAssignmentInput) :
    validateJtmAllocationSafe (storeOf db) input = validateJtmAllocation db input := by
  simp only [validateJtmAllocationSafe, validateJtmAllocationRun, storeOf,
    validateJtmAllocation, findAcademicYear]
  cases h : (db.academicYears.filter (fun y => y.id == input.academic_year_id)).head? <;>
    simp [h]

/-- Over the reliable store, the fallible aggregator is exactly the pure one. -/
theorem calculateTeacherWorkloadRun_storeOf (db : DB) (tid yid : Nat) :
    calculateTeacherWorkloadRun (storeOf db) tid yid = calculateTeacherWorkload db tid yid := by
  simp only [calculateTeacherWorkloadRun, storeOf, calculateTeacherWorkload, findTeacher]
  cases h : (db.teachers.filter (fun t => t.id == tid)).head? <;> simp [h, teacherNotFoundMsg]

/-- Over the reliable store, the per-class loop is exactly the pure map. -/
theorem classProgressRun_storeOf (db : DB) (yid : Nat) (limit : Int) :
    ∀ cs : List SchoolClass,
      classProgressRun (storeOf db) yid limit cs = .ok (cs.map (classProgress db yid limit)) := by
  intro cs
  induction cs with
  | nil => rfl
  | cons c rest ih =>
      have hc : (storeOf db).classJtmWithSubjects c.id yid =
        .ok (classJtmWithSubjects db c.id yid) := rfl
      simp only [classProgressRun, hc, ih, List.map_cons]
      rfl

/-- Over the reliable store, the fallible reporter is exactly the pure one. -/
theorem getJtmAllocationProgressRun_storeOf (db : DB) (yid : Nat) :
    getJtmAllocationProgressRun (storeOf db) yid = getJtmAllocationProgress db yid := by
  have h1 : (storeOf db).classesByYear yid =
    .ok (db.classes.filter (fun c => c.academic_year_id == yid)) := rfl
  have h2 : (storeOf db).academicYearsById yid =
    .ok (db.academicYears.filter (fun y => y.id == yid)) := rfl
  simp only [getJtmAllocationProgressRun, h1, h2, getJtmAllocationProgress, findAcademicYear]
  cases h : (db.academicYears.filter (fun y => y.id == yid)).head? <;>
    simp [h, classProgressRun_storeOf]

/-- **C9.** Validation never propagates a store failure: whenever any of its
queries fails, `validateJtmAllocationSafe` still returns the structured
result with exactly the single synthetic error and no warnings (and returns
the computed result untouched when nothing fails), whereas the aggregator
(`calculateTeacherWorkloadRun`) and the reporter
(`getJtmAllocationProgressRun`) pass the underlying store error through
unchanged. -/
theorem validateJtmAllocation_masks_store_failures
    (store : JtmStore) (input : CreateJtmAssignmentInput) :
    ((∃ e, validateJtmAllocationRun store input = .error e) →
      validateJtmAllocationSafe store input =
        { isValid := false
          errors := ["Validation failed due to system error"]
          warnings := [] }) ∧
    (∀ r, validateJtmAllocationRun store input = .ok r →
      validateJtmAllocationSafe store input = r) ∧
    (∀ tid yid e, store.teachersById tid = .error e →
      calculateTeacherWorkloadRun store tid yid = .error e) ∧
    (∀ yid e, store.classesByYear yid = .error e →
      getJtmAllocationProgressRun store yid = .error e) := by
  refine ⟨?_, ?_, ?_, ?_⟩
  · rintro ⟨e, he⟩
    simp [validateJtmAllocationSafe, he]
  · intro r hr
    simp [validateJtmAllocationSafe, hr]
  · intro tid yid e he
    simp [calculateTeacherWorkloadRun, he]
  · intro yid e he
    simp [getJtmAllocationProgressRun, he]

/-- A store whose every query fails. -/
def storeFail : JtmStore :=
  { academicYearsById := fun _ => .error "connection reset"
    teachersById := fun _ => .error "connection reset"
    jtmByClassYear := fun _ _ => .error "connection reset"
    jtmByTuple := fun _ => .error "connection reset"
    jtmJoinedByTeacherYear := fun _ _ => .error "connection reset"
    taskJoinedByTeacherYear := fun _ _ => .error "connection reset"
    classesByYear := fun _ => .error "connection reset"
    classJtmWithSubjects := fun _ _ => .error "connection reset" }

/-- Witness for C9 at the failing store: validation masks the failure while
aggregator and reporter propagate it verbatim. -/
theorem validateJtmAllocation_masks_store_failures_witness :
    validateJtmAllocationSafe storeFail inputW3 =
      { isValid := false
        errors := ["Validation failed due to system error"]
        warnings := [] } ∧
    calculateTeacherWorkloadRun storeFail 1 1 = .error "connection reset" ∧
    getJtmAllocationProgressRun storeFail 1 = .error "connection reset" :=
  ⟨(validateJtmAllocation_masks_store_failures storeFail inputW3).1 ⟨"connection reset", rfl⟩,
   (validateJtmAllocation_masks_store_failures storeFail inputW3).2.2.1 1 1 "connection reset" rfl,
   (validateJtmAllocation_masks_store_failures storeFail inputW3).2.2.2 1 "connection reset" rfl⟩
